import Mathlib

/-!
Verification of the Smart-Grid edge ingestion pipeline.

Shallow embedding of the edge ingestion pipeline of the Smart-Grid-System
repository and proofs about it.

* `clean_data` embeds `DataPreprocessor.clean_data`
  (`src/Edge Server/edge_server.py`, lines 101-139),
* `detect_anomalies` embeds `DataPreprocessor.detect_anomalies` (lines 141-170),
* `forward` embeds the retry loop of `receive_data` (lines 442-471),
* `receive_data` embeds the `/receive_data` route (lines 410-475),
* `store_data` embeds the `/store_data` route of
  `src/Central Server/central_server.py` (lines 58-105).

Numeric values are modelled by `ℚ` (the repository exchanges finite decimal
floats produced by `round(_, 1)` / `round(_, 2)`; no claim depends on binary
floating-point rounding).  The z-score comparison `|x − μ| / σ > 3` with
`σ = sqrt(variance)` is embedded by the order-isomorphic rational comparison
`(x − μ)² > 9 · variance` guarded by `variance > 0`, so that every definition
stays executable over `ℚ`.
-/

set_option autoImplicit false

namespace SmartGrid

/-- JSON-ish values exchanged between the components.  The only nested object
the system exchanges is `zone_distribution`, whose fields are numbers, so
object fields carry `ℚ` directly. -/
inductive JVal where
  | num (q : ℚ)
  | str (s : String)
  | jbool (b : Bool)
  | obj (fields : List (String × ℚ))
deriving DecidableEq

/-- Python exceptions that the embedded code can raise. -/
inductive PyErr where
  | keyError (k : String)
  | valueError (s : String)
  | typeError (s : String)
  | attributeError (s : String)
deriving DecidableEq

instance {ε α : Type} [DecidableEq ε] [DecidableEq α] : DecidableEq (Except ε α)
  | Except.ok x, Except.ok y =>
    if h : x = y then isTrue (by rw [h])
    else isFalse (by intro he; injection he; contradiction)
  | Except.ok _, Except.error _ => isFalse (fun h => Except.noConfusion h)
  | Except.error _, Except.ok _ => isFalse (fun h => Except.noConfusion h)
  | Except.error x, Except.error y =>
    if h : x = y then isTrue (by rw [h])
    else isFalse (by intro he; injection he; contradiction)

/-- Embeds `reading[k]` on a JSON object: the value, or a `KeyError`. -/
def jget (data : List (String × JVal)) (k : String) : Except PyErr JVal :=
  match data.lookup k with
  | some v => Except.ok v
  | none => Except.error (PyErr.keyError k)

/-- Embeds `data.get(k, d)` on a JSON object. -/
def getD (data : List (String × JVal)) (k : String) (d : JVal) : JVal :=
  (data.lookup k).getD d

/-- Digit run to a natural number (helper for the float/timestamp parsers). -/
def digitsToNat (l : List Char) : Nat :=
  l.foldl (fun a c => a * 10 + (c.toNat - 48)) 0

/-- Split a character list at its first dot, if any. -/
def splitDot : List Char → List Char × Option (List Char)
  | [] => ([], none)
  | '.' :: rest => ([], some rest)
  | c :: rest =>
    let r := splitDot rest
    (c :: r.1, r.2)

/-- Embeds `float(s)` on a string, restricted to the finite decimal literals the
system exchanges (optional sign, digits, optional fractional part; no
exponents, infinities or NaN). -/
def parseFloatStr (s : String) : Option ℚ :=
  let (sgn, body) : ℚ × List Char :=
    match s.data with
    | '-' :: t => (-1, t)
    | '+' :: t => (1, t)
    | t => (1, t)
  match splitDot body with
  | (ip, none) =>
    if ip ≠ [] ∧ ip.all Char.isDigit then some (sgn * digitsToNat ip) else none
  | (ip, some fp) =>
    if (ip ++ fp) ≠ [] ∧ (ip ++ fp).all Char.isDigit then
      some (sgn * ((digitsToNat ip : ℚ) + (digitsToNat fp : ℚ) / (10 : ℚ) ^ fp.length))
    else none

/-- Embeds `float(v)` on a JSON value (Python coerces booleans to `0.0` / `1.0`,
parses numeric strings, and raises `TypeError` on objects). -/
def pyFloat (v : JVal) : Except PyErr ℚ :=
  match v with
  | JVal.num q => Except.ok q
  | JVal.jbool b => Except.ok (if b then 1 else 0)
  | JVal.str s =>
    match parseFloatStr s with
    | some q => Except.ok q
    | none => Except.error (PyErr.valueError ("could not convert string to float: " ++ s))
  | JVal.obj _ => Except.error (PyErr.typeError "float() argument must be a string or a real number")

/-- Embeds `float(reading[k])`: lookup followed by coercion. -/
def reqFloat (data : List (String × JVal)) (k : String) : Except PyErr ℚ :=
  match jget data k with
  | Except.ok v => pyFloat v
  | Except.error e => Except.error e

/-- Embeds `str(v)` on a JSON value. -/
def pyStr (v : JVal) : String :=
  match v with
  | JVal.str s => s
  | JVal.jbool b => if b then "True" else "False"
  | JVal.num q => toString q.num ++ (if q.den = 1 then "" else "/" ++ toString q.den)
  | JVal.obj _ => "dict"

/-- Embeds `bool(v)`: Python truthiness of a JSON value. -/
def truthy (v : JVal) : Bool :=
  match v with
  | JVal.num q => decide (q ≠ 0)
  | JVal.str s => decide (s ≠ "")
  | JVal.jbool b => b
  | JVal.obj f => decide (f ≠ [])

/-- Character-level body of `s.replace("Z", "+00:00")`: every occurrence of
the single-character pattern is replaced. -/
def replaceZChars : List Char → List Char
  | [] => []
  | 'Z' :: rest => '+' :: '0' :: '0' :: ':' :: '0' :: '0' :: replaceZChars rest
  | c :: rest => c :: replaceZChars rest

/-- Embeds `s.replace("Z", "+00:00")` (line 111 of `edge_server.py`). -/
def replaceZ (s : String) : String := String.mk (replaceZChars s.data)

/-- Two-digit decimal field of a timestamp. -/
def twoDigits (a b : Char) : Nat := (a.toNat - 48) * 10 + (b.toNat - 48)

/-- Trailing UTC-offset of an ISO timestamp: empty or `±HH:MM`. -/
def offsetOk (l : List Char) : Bool :=
  match l with
  | [] => true
  | [c, h1, h2, ':', n1, n2] =>
      (c == '+' || c == '-') && ([h1, h2, n1, n2].all Char.isDigit)
  | _ => false

/-- What may follow the seconds field: an optional 6-digit fraction, then an
optional offset. -/
def tailOk (l : List Char) : Bool :=
  match l with
  | '.' :: rest =>
      ((rest.take 6).all Char.isDigit) && (rest.take 6).length == 6 && offsetOk (rest.drop 6)
  | rest => offsetOk rest

/-- Embeds `datetime.fromisoformat(s)` (standard library), restricted to the
second- or microsecond-precision `YYYY-MM-DD?HH:MM:SS[.ffffff][±HH:MM]`
formats that `datetime.now().isoformat()` produces and the system exchanges.
Returns whether the string parses; the canonical `isoformat()` of the result
is the string itself for this subset. -/
def parseIso (s : String) : Bool :=
  match s.toList with
  | y1 :: y2 :: y3 :: y4 :: '-' :: m1 :: m2 :: '-' :: d1 :: d2 :: sep :: h1 :: h2 :: ':'
      :: n1 :: n2 :: ':' :: s1 :: s2 :: rest =>
      ([y1, y2, y3, y4, m1, m2, d1, d2, h1, h2, n1, n2, s1, s2].all Char.isDigit)
      && (sep == 'T' || sep == ' ')
      && decide (1 ≤ twoDigits m1 m2) && decide (twoDigits m1 m2 ≤ 12)
      && decide (1 ≤ twoDigits d1 d2) && decide (twoDigits d1 d2 ≤ 31)
      && decide (twoDigits h1 h2 ≤ 23)
      && decide (twoDigits n1 n2 ≤ 59) && decide (twoDigits s1 s2 ≤ 59)
      && tailOk rest
  | _ => false

-- Configuration constants (edge_server.py lines 22-25).
def WINDOW_SIZE : Nat := 10

def VOLTAGE_THRESHOLD : ℚ × ℚ := (220, 240)

def CURRENT_THRESHOLD : ℚ × ℚ := (5, 15)

/-- The `is_valid` check of `clean_data` (lines 124-128): voltage and current
each inside their configured closed interval. -/
def readingIsValid (voltage current : ℚ) : Bool :=
  decide (VOLTAGE_THRESHOLD.1 ≤ voltage ∧ voltage ≤ VOLTAGE_THRESHOLD.2 ∧
          CURRENT_THRESHOLD.1 ≤ current ∧ current ≤ CURRENT_THRESHOLD.2)

/-- The `formatted_reading` dict built by `clean_data` (fixed key set, so a
structure): lines 116-133 of `edge_server.py`. -/
structure Cleaned where
  voltage : ℚ
  current : ℚ
  power_consumption : ℚ
  city : String
  timestamp : String
  status : String
  flagged : Bool
  anomaly : Bool
deriving DecidableEq

/-- Embeds `DataPreprocessor.clean_data` (lines 101-139): coerce the required fields,
normalize the timestamp, range-check voltage and current, and attach
`status` / `flagged` / `anomaly`.  Any failure propagates as the raised
exception. -/
def clean_data (reading : List (String × JVal)) : Except PyErr Cleaned :=
  match reqFloat reading "voltage" with
  | Except.error e => Except.error e
  | Except.ok voltage =>
  match reqFloat reading "current" with
  | Except.error e => Except.error e
  | Except.ok current =>
  match reqFloat reading "power_consumption" with
  | Except.error e => Except.error e
  | Except.ok power =>
  match jget reading "timestamp" with
  | Except.error e => Except.error e
  | Except.ok tsv =>
  -- lines 110-113: a string timestamp is parsed now (Z replaced by +00:00);
  -- a non-string raises AttributeError only at `.isoformat()` below.
  match (match tsv with
         | JVal.str s =>
           let s2 := replaceZ s
           if parseIso s2 then Except.ok (some s2)
           else Except.error (PyErr.valueError ("Invalid isoformat string: " ++ s2))
         | _ => Except.ok none) with
  | Except.error e => Except.error e
  | Except.ok parsedTs =>
  match jget reading "city" with
  | Except.error e => Except.error e
  | Except.ok cityv =>
  match (match parsedTs with
         | some s2 => Except.ok s2
         | none => Except.error (PyErr.attributeError "isoformat")) with
  | Except.error e => Except.error e
  | Except.ok timestamp =>
  Except.ok
    { voltage := voltage
      current := current
      power_consumption := power
      city := pyStr cityv
      timestamp := timestamp
      status := if readingIsValid voltage current then "valid" else "invalid"
      flagged := !readingIsValid voltage current
      anomaly := false }

/-- Window update of `detect_anomalies` (lines 147-151): append, then drop the
head (`pop(0)`) if the length exceeds `WINDOW_SIZE`. -/
def windowUpdate (buf : List ℚ) (x : ℚ) : List ℚ :=
  if (buf ++ [x]).length > WINDOW_SIZE then (buf ++ [x]).tail else buf ++ [x]

/-- Embeds `np.mean` over a list of rationals. -/
def listMean (l : List ℚ) : ℚ := l.sum / l.length

/-- Population variance (the square of `np.std`) over a list of rationals. -/
def listVar (l : List ℚ) : ℚ :=
  ((l.map fun v => (v - listMean l) ^ 2).sum) / l.length

/-- The anomaly flag computed by `detect_anomalies` (lines 153-165): when the
post-update window holds at least `WINDOW_SIZE` entries, the reading is an
anomaly iff `z_score > 3` where `z_score = |x − μ| / σ` if `σ > 0` else `0`.
Since `σ = sqrt(listVar)`, `σ > 0` is `listVar > 0` and `z_score > 3` is
`(x − μ)² > 9 · listVar`, keeping the definition inside `ℚ`. -/
def detectAnomaly (buf : List ℚ) (x : ℚ) : Bool :=
  let b := windowUpdate buf x
  if b.length ≥ WINDOW_SIZE then
    let m := listMean b
    let v := listVar b
    if v > 0 then decide ((x - m) ^ 2 > 9 * v) else false
  else false

/-- Embeds `DataPreprocessor.detect_anomalies` (lines 141-170).  The buffer table
`readings_buffer` is a map from the raw `reading["city"]` value to that
window of that source; only the `power_consumption` of each buffered reading is ever
read, so the window stores those values. -/
def detect_anomalies (bufs : JVal → List ℚ) (city : JVal) (r : Cleaned) :
    (JVal → List ℚ) × Cleaned :=
  let newbuf := windowUpdate (bufs city) r.power_consumption
  let flag := detectAnomaly (bufs city) r.power_consumption
  (fun c => if c = city then newbuf else bufs c, { r with anomaly := flag })

/-- The reference scoring algorithm, written from the specification words
(claim C2 / spec section 4.2): after appending the value (evicting the oldest
if the window exceeds `N`), the flag is false on a cold-start window of fewer
than `N` entries, false when the population standard deviation is zero, and
otherwise true exactly when `z = |x − μ| / σ` exceeds `3.0` — embedded over
`ℚ` as `(x − μ)² > 9 · σ²` with `σ² = listVar`. -/
def refAnomaly (buf : List ℚ) (x : ℚ) : Bool :=
  let b := windowUpdate buf x
  if b.length < WINDOW_SIZE then false
  else if listVar b = 0 then false
  else decide ((x - listMean b) ^ 2 > 9 * listVar b)

-- Forwarding constants (edge_server.py lines 442-443).
def max_retries : Nat := 3

def retry_delay : ℚ := 1

/-- One `session.post` outcome, as the retry loop observes it: an HTTP
response with a status code and the error message extracted from its body, or
a `requests.exceptions.RequestException` (network error, timeout, or the
transport adapter exhausting its own internal retries). -/
inductive StoreResp where
  | status (code : Nat) (msg : String)
  | netError
deriving DecidableEq

/-- Terminal outcome of the retry loop. -/
inductive FwdOutcome where
  | delivered
  | httpFailed (msg : String)
  | netFailed
  | exhausted
deriving DecidableEq

/-- Observable trace of the retry loop: terminal outcome, number of
`session.post` delivery calls, and the `time.sleep` durations in order. -/
structure FwdTrace where
  outcome : FwdOutcome
  calls : Nat
  delays : List ℚ
deriving DecidableEq

/-- Body of `for attempt in range(max_retries)` (lines 445-471): `attempt` is
the current 0-based index, `rem` the number of iterations left.  On a non-200
response or a network error, when `attempt < max_retries - 1` (i.e. `rem > 1`)
sleep `retry_delay * 2 ** attempt` and continue, otherwise return the failure
response. -/
def forwardGo (store : Nat → StoreResp) : Nat → Nat → FwdTrace
  | _, 0 => ⟨FwdOutcome.exhausted, 0, []⟩
  | attempt, rem + 1 =>
    match store attempt with
    | StoreResp.status code msg =>
      if code = 200 then ⟨FwdOutcome.delivered, 1, []⟩
      else if rem = 0 then ⟨FwdOutcome.httpFailed msg, 1, []⟩
      else
        let t := forwardGo store (attempt + 1) rem
        ⟨t.outcome, t.calls + 1, retry_delay * 2 ^ attempt :: t.delays⟩
    | StoreResp.netError =>
      if rem = 0 then ⟨FwdOutcome.netFailed, 1, []⟩
      else
        let t := forwardGo store (attempt + 1) rem
        ⟨t.outcome, t.calls + 1, retry_delay * 2 ^ attempt :: t.delays⟩

/-- The whole retry loop, driven by the sequence of store responses. -/
def forward (store : Nat → StoreResp) : FwdTrace :=
  forwardGo store 0 max_retries

/-- The distinct responses `receive_data` can return, one constructor per
`return` site (lines 456, 464, 471, 475; `fellThrough` is the implicit `None`
were the loop ever to finish without returning). -/
inductive EdgeResponse where
  | ok
  | forwardFailed (msg : String)
  | networkFailed
  | exceptionError (e : PyErr)
  | fellThrough
deriving DecidableEq

/-- The JSON body and HTTP code each response maps to. -/
def EdgeResponse.toHttp : EdgeResponse → String × String × Nat
  | EdgeResponse.ok => ("success", "Data processed and forwarded", 200)
  | EdgeResponse.forwardFailed m =>
      ("error", "Failed to forward data after 3 attempts: " ++ m, 500)
  | EdgeResponse.networkFailed => ("error", "Network error after multiple retries", 500)
  | EdgeResponse.exceptionError _ => ("error", "exception detail", 500)
  | EdgeResponse.fellThrough => ("error", "no response", 500)

/-- The `required_fields` dict of `receive_data` (lines 424-439): the
fields of the processed reading itself plus enrichment fields taken from the RAW
reading, each coerced with `float`/`bool` — a missing or uncoercible
enrichment field raises. -/
def buildRequired (reading : List (String × JVal)) (p : Cleaned) :
    Except PyErr (List (String × JVal)) :=
  match reqFloat reading "temperature" with
  | Except.error e => Except.error e
  | Except.ok temperature =>
  match reqFloat reading "humidity" with
  | Except.error e => Except.error e
  | Except.ok humidity =>
  match jget reading "zone_distribution" with
  | Except.error e => Except.error e
  | Except.ok zd =>
  match jget reading "is_peak_hour" with
  | Except.error e => Except.error e
  | Except.ok peakv =>
  match reqFloat reading "per_capita_consumption" with
  | Except.error e => Except.error e
  | Except.ok perCap =>
  match reqFloat reading "efficiency_score" with
  | Except.error e => Except.error e
  | Except.ok eff =>
  Except.ok
    [("city", JVal.str p.city),
     ("timestamp", JVal.str p.timestamp),
     ("voltage", JVal.num p.voltage),
     ("current", JVal.num p.current),
     ("power_consumption", JVal.num p.power_consumption),
     ("status", JVal.str p.status),
     ("flagged", JVal.jbool p.flagged),
     ("anomaly", JVal.jbool p.anomaly),
     ("temperature", JVal.num temperature),
     ("humidity", JVal.num humidity),
     ("zone_distribution", zd),
     ("is_peak_hour", JVal.jbool (truthy peakv)),
     ("per_capita_consumption", JVal.num perCap),
     ("efficiency_score", JVal.num eff)]

/-- Mapping from the terminal outcome of the retry loop to the response of the route
(lines 456, 464, 471). -/
def respOf : FwdOutcome → EdgeResponse
  | FwdOutcome.delivered => EdgeResponse.ok
  | FwdOutcome.httpFailed m => EdgeResponse.forwardFailed m
  | FwdOutcome.netFailed => EdgeResponse.networkFailed
  | FwdOutcome.exhausted => EdgeResponse.fellThrough

/-- Observable result of one `/receive_data` request: the response, the buffer
table afterwards, the payload sent to the store (if forwarding was reached),
the number of delivery calls and the backoff sleeps. -/
structure ReceiveResult where
  response : EdgeResponse
  bufs : JVal → List ℚ
  payload : Option (List (String × JVal))
  calls : Nat
  delays : List ℚ

/-- The `/receive_data` route (lines 410-475): access `reading["city"]` (the
log line), clean, score, build `required_fields`, then run the retry loop.
Any exception escapes to the outer handler (line 475). -/
def receive_data (bufs : JVal → List ℚ) (store : Nat → StoreResp)
    (reading : List (String × JVal)) : ReceiveResult :=
  match jget reading "city" with
  | Except.error e => ⟨EdgeResponse.exceptionError e, bufs, none, 0, []⟩
  | Except.ok city =>
  match clean_data reading with
  | Except.error e => ⟨EdgeResponse.exceptionError e, bufs, none, 0, []⟩
  | Except.ok cleaned =>
  match buildRequired reading (detect_anomalies bufs city cleaned).2 with
  | Except.error e =>
    ⟨EdgeResponse.exceptionError e, (detect_anomalies bufs city cleaned).1, none, 0, []⟩
  | Except.ok payload =>
    ⟨respOf (forward store).outcome, (detect_anomalies bufs city cleaned).1, some payload,
     (forward store).calls, (forward store).delays⟩

/-- One row of the `power_readings` table, with exactly the columns the
`INSERT` of `store_data` fills (central_server.py lines 74-96).  Booleans are
stored as `0` / `1` integers; there is no column for `status`, `flagged` or
`anomaly`. -/
structure DbRow where
  city : JVal
  timestamp : JVal
  voltage : ℚ
  current : ℚ
  power_consumption : ℚ
  temperature : ℚ
  humidity : ℚ
  is_anomaly : Nat
  is_peak_hour : Nat
  zone_industrial : ℚ
  zone_residential : ℚ
  zone_commercial : ℚ
  per_capita_consumption : ℚ
  efficiency_score : ℚ
deriving DecidableEq

/-- The `/store_data` route (lines 58-105): required fields `city`,
`timestamp`, `voltage`, `current`, `power_consumption`; enrichment fields
defaulted via `data.get(_, 0)`; `is_anomaly` / `is_peak_hour` read by
truthiness with default `False`; zone columns from
`data.get("zone_distribution", ...)` — `.get` on a non-object raises.  An
exception answers HTTP 500, a stored row answers 200. -/
def store_data (data : List (String × JVal)) : Except PyErr DbRow :=
  match jget data "city" with
  | Except.error e => Except.error e
  | Except.ok city =>
  match jget data "timestamp" with
  | Except.error e => Except.error e
  | Except.ok timestamp =>
  match (match getD data "zone_distribution" (JVal.obj []) with
         | JVal.obj fields => Except.ok fields
         | _ => Except.error (PyErr.attributeError "get")) with
  | Except.error e => Except.error e
  | Except.ok zone_dist =>
  match reqFloat data "voltage" with
  | Except.error e => Except.error e
  | Except.ok voltage =>
  match reqFloat data "current" with
  | Except.error e => Except.error e
  | Except.ok current =>
  match reqFloat data "power_consumption" with
  | Except.error e => Except.error e
  | Except.ok power =>
  match pyFloat (getD data "temperature" (JVal.num 0)) with
  | Except.error e => Except.error e
  | Except.ok temperature =>
  match pyFloat (getD data "humidity" (JVal.num 0)) with
  | Except.error e => Except.error e
  | Except.ok humidity =>
  match pyFloat (getD data "per_capita_consumption" (JVal.num 0)) with
  | Except.error e => Except.error e
  | Except.ok perCap =>
  match pyFloat (getD data "efficiency_score" (JVal.num 0)) with
  | Except.error e => Except.error e
  | Except.ok eff =>
  Except.ok
    { city := city
      timestamp := timestamp
      voltage := voltage
      current := current
      power_consumption := power
      temperature := temperature
      humidity := humidity
      is_anomaly := if truthy (getD data "is_anomaly" (JVal.jbool false)) then 1 else 0
      is_peak_hour := if truthy (getD data "is_peak_hour" (JVal.jbool false)) then 1 else 0
      zone_industrial := (zone_dist.lookup "industrial").getD 0
      zone_residential := (zone_dist.lookup "residential").getD 0
      zone_commercial := (zone_dist.lookup "commercial").getD 0
      per_capita_consumption := perCap
      efficiency_score := eff }

/-! Concrete inputs used by witnesses and counterexamples. -/

/-- A fully populated inbound reading with in-range voltage and current. -/
def sampleReading : List (String × JVal) :=
  [("city", JVal.str "Mumbai"),
   ("timestamp", JVal.str "2024-01-01T10:00:00"),
   ("voltage", JVal.num 230),
   ("current", JVal.num 10),
   ("power_consumption", JVal.num 1000),
   ("temperature", JVal.num 30),
   ("humidity", JVal.num 70),
   ("zone_distribution", JVal.obj [("industrial", 300), ("residential", 450), ("commercial", 250)]),
   ("is_peak_hour", JVal.jbool false),
   ("per_capita_consumption", JVal.num 49),
   ("efficiency_score", JVal.num 1)]

/-- Variant of `sampleReading` with the value at key `k` replaced by `v`. -/
def sampleWith (k : String) (v : JVal) : List (String × JVal) :=
  sampleReading.map fun p => if p.1 = k then (k, v) else p

/-- The empty buffer table (a fresh `DataPreprocessor`). -/
def emptyBufs : JVal → List ℚ := fun _ => []

/-- A store that accepts every delivery. -/
def okStore : Nat → StoreResp := fun _ => StoreResp.status 200 "Data stored successfully"

/-- A store that is never reachable. -/
def downStore : Nat → StoreResp := fun _ => StoreResp.netError

/-- A store that rejects every payload as invalid (application-level 400). -/
def rejectStore : Nat → StoreResp := fun _ => StoreResp.status 400 "Invalid payload"

/-- The cleaned form of `sampleReading`. -/
def sampleCleaned : Cleaned :=
  { voltage := 230
    current := 10
    power_consumption := 1000
    city := "Mumbai"
    timestamp := "2024-01-01T10:00:00"
    status := "valid"
    flagged := false
    anomaly := false }

/-- The payload `receive_data` forwards for `sampleReading` on a fresh
preprocessor. -/
def samplePayload : List (String × JVal) :=
  [("city", JVal.str "Mumbai"),
   ("timestamp", JVal.str "2024-01-01T10:00:00"),
   ("voltage", JVal.num 230),
   ("current", JVal.num 10),
   ("power_consumption", JVal.num 1000),
   ("status", JVal.str "valid"),
   ("flagged", JVal.jbool false),
   ("anomaly", JVal.jbool false),
   ("temperature", JVal.num 30),
   ("humidity", JVal.num 70),
   ("zone_distribution", JVal.obj [("industrial", 300), ("residential", 450), ("commercial", 250)]),
   ("is_peak_hour", JVal.jbool false),
   ("per_capita_consumption", JVal.num 49),
   ("efficiency_score", JVal.num 1)]

/-- The row the central store persists for `samplePayload`. -/
def sampleRow : DbRow :=
  { city := JVal.str "Mumbai"
    timestamp := JVal.str "2024-01-01T10:00:00"
    voltage := 230
    current := 10
    power_consumption := 1000
    temperature := 30
    humidity := 70
    is_anomaly := 0
    is_peak_hour := 0
    zone_industrial := 300
    zone_residential := 450
    zone_commercial := 250
    per_capita_consumption := 49
    efficiency_score := 1 }

/-- Variant of `sampleReading` with an out-of-range voltage. -/
def hotReading : List (String × JVal) := sampleWith "voltage" (JVal.num 250)

/-- The cleaned form of `hotReading`. -/
def hotCleaned : Cleaned :=
  { sampleCleaned with voltage := 250, status := "invalid", flagged := true }

/-- The payload `receive_data` forwards for `hotReading` on a fresh
preprocessor. -/
def hotPayload : List (String × JVal) :=
  (samplePayload.map fun p => if p.1 = "voltage" then ("voltage", JVal.num 250) else p).map
    fun p =>
      if p.1 = "status" then ("status", JVal.str "invalid")
      else if p.1 = "flagged" then ("flagged", JVal.jbool true)
      else p

/-- An inbound reading carrying only the five required fields and no
enrichment fields. -/
def bareReading : List (String × JVal) :=
  [("city", JVal.str "Delhi"),
   ("timestamp", JVal.str "2024-01-01T10:00:00"),
   ("voltage", JVal.num 230),
   ("current", JVal.num 10),
   ("power_consumption", JVal.num 1000)]

/-- A buffer table in which every source already holds a full window. -/
def tenBufs : JVal → List ℚ := fun _ => [1, 2, 3, 4, 5, 6, 7, 8, 9, 10]

/-! ## Helper lemmas -/

lemma listVar_nonneg (l : List ℚ) : 0 ≤ listVar l := by
  unfold listVar
  apply div_nonneg
  · apply List.sum_nonneg
    intro x hx
    simp only [List.mem_map] at hx
    obtain ⟨v, -, rfl⟩ := hx
    positivity
  · exact Nat.cast_nonneg _

lemma windowUpdate_length_le (buf : List ℚ) (x : ℚ) (h : buf.length ≤ WINDOW_SIZE) :
    (windowUpdate buf x).length ≤ WINDOW_SIZE := by
  unfold windowUpdate
  split
  · simpa [List.length_tail, List.length_append] using h
  · next hgt =>
      simp only [gt_iff_lt, not_lt] at hgt
      exact hgt

lemma windowUpdate_full (buf : List ℚ) (x : ℚ) (h : buf.length = WINDOW_SIZE) :
    windowUpdate buf x = buf.tail ++ [x] := by
  unfold windowUpdate
  rw [if_pos (by simp [List.length_append, h])]
  cases buf with
  | nil => rw [List.length_nil] at h; exact absurd h.symm (by simp [WINDOW_SIZE])
  | cons a t => simp

lemma jget_error (r : List (String × JVal)) (k : String) (e : PyErr)
    (h : jget r k = Except.error e) : e = PyErr.keyError k := by
  unfold jget at h
  split at h
  · exact Except.noConfusion h
  · injection h with h2; exact h2.symm

lemma jget_of_lookup_none (r : List (String × JVal)) (k : String)
    (h : r.lookup k = none) : jget r k = Except.error (PyErr.keyError k) := by
  unfold jget
  rw [h]

lemma clean_data_fields (r : List (String × JVal)) (c : Cleaned)
    (h : clean_data r = Except.ok c) :
    c.status = (if readingIsValid c.voltage c.current then "valid" else "invalid") ∧
    c.flagged = (!readingIsValid c.voltage c.current) ∧
    c.anomaly = false := by
  unfold clean_data at h
  repeat' split at h
  all_goals try exact Except.noConfusion h
  all_goals cases h
  all_goals simp_all

lemma buildRequired_ok (r : List (String × JVal)) (p : Cleaned)
    (payload : List (String × JVal))
    (h : buildRequired r p = Except.ok payload) :
    ∃ t hm zd pk pc ef,
      payload =
        [("city", JVal.str p.city),
         ("timestamp", JVal.str p.timestamp),
         ("voltage", JVal.num p.voltage),
         ("current", JVal.num p.current),
         ("power_consumption", JVal.num p.power_consumption),
         ("status", JVal.str p.status),
         ("flagged", JVal.jbool p.flagged),
         ("anomaly", JVal.jbool p.anomaly),
         ("temperature", JVal.num t),
         ("humidity", JVal.num hm),
         ("zone_distribution", zd),
         ("is_peak_hour", JVal.jbool pk),
         ("per_capita_consumption", JVal.num pc),
         ("efficiency_score", JVal.num ef)] := by
  unfold buildRequired at h
  repeat' split at h
  all_goals try exact Except.noConfusion h
  cases h
  exact ⟨_, _, _, _, _, _, rfl⟩

lemma receive_data_forwarding (bufs : JVal → List ℚ) (store : Nat → StoreResp)
    (r : List (String × JVal)) (city : JVal) (cleaned : Cleaned)
    (payload : List (String × JVal))
    (hcity : jget r "city" = Except.ok city)
    (hclean : clean_data r = Except.ok cleaned)
    (hbuild : buildRequired r (detect_anomalies bufs city cleaned).2 = Except.ok payload) :
    receive_data bufs store r =
      ⟨respOf (forward store).outcome,
       (detect_anomalies bufs city cleaned).1, some payload,
       (forward store).calls, (forward store).delays⟩ := by
  unfold receive_data
  rw [hcity, hclean]
  dsimp only
  rw [hbuild]

lemma forwardGo_calls_le (store : Nat → StoreResp) :
    ∀ rem a, (forwardGo store a rem).calls ≤ rem := by
  intro rem
  induction rem with
  | zero => intro a; simp [forwardGo]
  | succ n ih =>
    intro a
    simp only [forwardGo]
    cases store a with
    | status code msg =>
      dsimp only
      split_ifs
      · simp
      · simp
      · simpa using Nat.succ_le_succ (ih (a + 1))
    | netError =>
      dsimp only
      split_ifs
      · simp
      · simpa using Nat.succ_le_succ (ih (a + 1))

lemma forwardGo_calls_pos (store : Nat → StoreResp) (a rem : Nat) (h : 0 < rem) :
    0 < (forwardGo store a rem).calls := by
  cases rem with
  | zero => omega
  | succ n =>
    simp only [forwardGo]
    cases store a with
    | status code msg => dsimp only; split_ifs <;> simp
    | netError => dsimp only; split_ifs <;> simp

lemma forwardGo_delays (store : Nat → StoreResp) :
    ∀ rem a, (forwardGo store a rem).delays =
      (List.range' a ((forwardGo store a rem).calls - 1)).map
        (fun i => retry_delay * 2 ^ i) := by
  intro rem
  induction rem with
  | zero => intro a; simp [forwardGo]
  | succ n ih =>
    intro a
    simp only [forwardGo]
    cases store a with
    | status code msg =>
      dsimp only
      split_ifs with h1 h2
      · simp
      · simp
      · dsimp only
        have hpos : 0 < (forwardGo store (a + 1) n).calls :=
          forwardGo_calls_pos store (a + 1) n (Nat.pos_of_ne_zero h2)

        obtain ⟨k, hk⟩ : ∃ k, (forwardGo store (a + 1) n).calls = k + 1 :=
          ⟨(forwardGo store (a + 1) n).calls - 1, by omega⟩
        rw [ih (a + 1), hk]
        simp only [Nat.add_sub_cancel, List.range'_succ, List.map_cons]
    | netError =>
      dsimp only
      split_ifs with h1
      · simp
      · dsimp only
        have hpos : 0 < (forwardGo store (a + 1) n).calls :=
          forwardGo_calls_pos store (a + 1) n (Nat.pos_of_ne_zero h1)
        obtain ⟨k, hk⟩ : ∃ k, (forwardGo store (a + 1) n).calls = k + 1 :=
          ⟨(forwardGo store (a + 1) n).calls - 1, by omega⟩
        rw [ih (a + 1), hk]
        simp only [Nat.add_sub_cancel, List.range'_succ, List.map_cons]

lemma forwardGo_allfail (store : Nat → StoreResp)
    (hf : ∀ i m, store i ≠ StoreResp.status 200 m) :
    ∀ rem a, 0 < rem →
      (forwardGo store a rem).calls = rem ∧
      ((∃ m, (forwardGo store a rem).outcome = FwdOutcome.httpFailed m) ∨
        (forwardGo store a rem).outcome = FwdOutcome.netFailed) := by
  intro rem
  induction rem with
  | zero => intro a h; omega
  | succ n ih =>
    intro a _
    simp only [forwardGo]
    cases hs : store a with
    | status code msg =>
      have hcode : ¬ code = 200 := fun h => hf a msg (h ▸ hs)
      dsimp only
      rw [if_neg hcode]
      by_cases hn : n = 0
      · subst hn; simp
      · rw [if_neg hn]
        have hrec := ih (a + 1) (Nat.pos_of_ne_zero hn)
        exact ⟨by simp [hrec.1], by simpa using hrec.2⟩
    | netError =>
      dsimp only
      by_cases hn : n = 0
      · subst hn; simp
      · rw [if_neg hn]
        have hrec := ih (a + 1) (Nat.pos_of_ne_zero hn)
        exact ⟨by simp [hrec.1], by simpa using hrec.2⟩

lemma forwardGo_first_success (store : Nat → StoreResp) :
    ∀ k rem a m, k < rem → store (a + k) = StoreResp.status 200 m →
      (∀ j, j < k → ∀ m2, store (a + j) ≠ StoreResp.status 200 m2) →
      (forwardGo store a rem).outcome = FwdOutcome.delivered ∧
      (forwardGo store a rem).calls = k + 1 := by
  intro k
  induction k with
  | zero =>
    intro rem a m hk hs _
    cases rem with
    | zero => omega
    | succ n =>
      rw [Nat.add_zero] at hs
      simp only [forwardGo]
      rw [hs]
      simp
  | succ k ih =>
    intro rem a m hk hs hj
    cases rem with
    | zero => omega
    | succ n =>
      have h0 : ∀ m2, store a ≠ StoreResp.status 200 m2 := by
        intro m2
        simpa using hj 0 (Nat.succ_pos k) m2
      have hn : ¬ n = 0 := by omega
      have hs2 : store (a + 1 + k) = StoreResp.status 200 m := by
        rw [← hs]; congr 1; omega
      have hj2 : ∀ j, j < k → ∀ m2, store (a + 1 + j) ≠ StoreResp.status 200 m2 := by
        intro j hjk m2 hcontra
        exact hj (j + 1) (by omega) m2 (by rw [← hcontra]; congr 1; omega)
      have hrec := ih n (a + 1) m (by omega) hs2 hj2
      simp only [forwardGo]
      cases hsa : store a with
      | status code msg =>
        have hcode : ¬ code = 200 := fun h => h0 msg (h ▸ hsa)
        dsimp only
        rw [if_neg hcode, if_neg hn]
        exact ⟨by simpa using hrec.1, by simp [hrec.2]⟩
      | netError =>
        dsimp only
        rw [if_neg hn]
        exact ⟨by simpa using hrec.1, by simp [hrec.2]⟩

lemma forward_calls_pos (store : Nat → StoreResp) : 1 ≤ (forward store).calls := by
  unfold forward max_retries
  simp only [forwardGo]
  cases store 0 with
  | status code msg =>
    by_cases h : code = 200 <;> simp [h]
  | netError => simp

lemma store_data_is_anomaly (data : List (String × JVal)) (row : DbRow)
    (h : store_data data = Except.ok row)
    (hno : data.lookup "is_anomaly" = none) : row.is_anomaly = 0 := by
  have hg : getD data "is_anomaly" (JVal.jbool false) = JVal.jbool false := by
    unfold getD
    rw [hno]
    rfl
  unfold store_data at h
  rw [hg] at h
  simp only [truthy, Bool.false_eq_true, if_false] at h
  repeat' split at h
  all_goals try exact Except.noConfusion h
  all_goals cases h
  all_goals rfl

/-! ## Claim theorems -/

/-- C1: for every reading that passes validation, `status = "valid"` iff the
voltage lies in the closed interval [220, 240] and the current lies in the
closed interval [5, 15]; otherwise `status = "invalid"`; and `flagged` is true
iff `status = "invalid"`. -/
theorem C1_status_valid_iff_in_bounds (r : List (String × JVal)) (c : Cleaned)
    (h : clean_data r = Except.ok c) :
    (c.status = "valid" ↔
      ((220 : ℚ) ≤ c.voltage ∧ c.voltage ≤ 240 ∧ (5 : ℚ) ≤ c.current ∧ c.current ≤ 15)) ∧
    (c.status = "valid" ∨ c.status = "invalid") ∧
    (c.flagged = true ↔ c.status = "invalid") := by
  obtain ⟨hs, hf, -⟩ := clean_data_fields r c h
  have hriv : readingIsValid c.voltage c.current =
      decide ((220 : ℚ) ≤ c.voltage ∧ c.voltage ≤ 240 ∧
              (5 : ℚ) ≤ c.current ∧ c.current ≤ 15) := rfl
  rw [hriv] at hs hf
  by_cases hv : (220 : ℚ) ≤ c.voltage ∧ c.voltage ≤ 240 ∧
      (5 : ℚ) ≤ c.current ∧ c.current ≤ 15
  · rw [decide_eq_true hv] at hs hf
    rw [if_pos rfl] at hs
    refine ⟨⟨fun _ => hv, fun _ => hs⟩, Or.inl hs, ?_⟩
    constructor
    · intro hfl
      rw [hf] at hfl
      exact absurd hfl (by decide)
    · intro hinv
      rw [hs] at hinv
      exact absurd hinv (by decide)
  · rw [decide_eq_false hv] at hs hf
    rw [if_neg (by decide)] at hs
    refine ⟨?_, Or.inr hs, ?_⟩
    · constructor
      · intro hval
        rw [hs] at hval
        exact absurd hval (by decide)
      · intro hh
        exact absurd hh hv
    · simp [hs, hf]

/-- Witness for C1 at a concrete in-range reading. -/
theorem C1_witness :
    clean_data sampleReading = Except.ok sampleCleaned ∧
    (sampleCleaned.status = "valid" ↔
      ((220 : ℚ) ≤ sampleCleaned.voltage ∧ sampleCleaned.voltage ≤ 240 ∧
       (5 : ℚ) ≤ sampleCleaned.current ∧ sampleCleaned.current ≤ 15)) :=
  ⟨by decide, (C1_status_valid_iff_in_bounds sampleReading sampleCleaned (by decide)).1⟩

/-- C2: the anomaly flag the Detector attaches to each returned reading equals
the reference algorithm: after appending the power value (evicting the oldest
when the window exceeds N), the flag is false on a window of fewer than N
entries, false when the population standard deviation is zero, and otherwise
true exactly when the z-score over the post-append window exceeds 3.0. -/
theorem C2_detector_matches_reference (bufs : JVal → List ℚ) (city : JVal) (r : Cleaned) :
    (detect_anomalies bufs city r).2.anomaly = refAnomaly (bufs city) r.power_consumption := by
  show detectAnomaly (bufs city) r.power_consumption = _
  generalize bufs city = buf
  generalize r.power_consumption = x
  unfold detectAnomaly refAnomaly
  dsimp only
  by_cases hlen : (windowUpdate buf x).length ≥ WINDOW_SIZE
  · have hnl : ¬ (windowUpdate buf x).length < WINDOW_SIZE := by omega
    rcases lt_or_eq_of_le (listVar_nonneg (windowUpdate buf x)) with hv | hv
    · rw [if_pos hlen, if_pos hv, if_neg hnl, if_neg (ne_of_gt hv)]
    · rw [if_pos hlen, if_neg (by rw [← hv]; exact lt_irrefl 0), if_neg hnl, if_pos hv.symm]
  · have hnl : (windowUpdate buf x).length < WINDOW_SIZE := by omega
    rw [if_neg hlen, if_pos hnl]

/-- C3: after every Detector invocation every per-source window holds at most
`WINDOW_SIZE` entries, and when a new value arrives while the window is full,
the oldest (front) entry is the one evicted. -/
theorem C3_window_bounded_fifo (bufs : JVal → List ℚ) (city : JVal) (r : Cleaned)
    (hinv : ∀ c, (bufs c).length ≤ WINDOW_SIZE) :
    (∀ c, ((detect_anomalies bufs city r).1 c).length ≤ WINDOW_SIZE) ∧
    ((bufs city).length = WINDOW_SIZE →
      (detect_anomalies bufs city r).1 city = (bufs city).tail ++ [r.power_consumption]) := by
  constructor
  · intro c
    show (if c = city then windowUpdate (bufs city) r.power_consumption
          else bufs c).length ≤ WINDOW_SIZE
    split_ifs with hc
    · exact windowUpdate_length_le _ _ (hinv city)
    · exact hinv c
  · intro hfull
    show (if city = city then windowUpdate (bufs city) r.power_consumption
          else bufs city) = (bufs city).tail ++ [r.power_consumption]
    rw [if_pos rfl]
    exact windowUpdate_full _ _ hfull

/-- Witness for C3: feeding a full ten-element window evicts the oldest
value. -/
theorem C3_witness :
    (detect_anomalies tenBufs (JVal.str "Mumbai") sampleCleaned).1 (JVal.str "Mumbai") =
      [2, 3, 4, 5, 6, 7, 8, 9, 10, 1000] :=
  ((C3_window_bounded_fifo tenBufs (JVal.str "Mumbai") sampleCleaned
      (fun _ => by simp [tenBufs, WINDOW_SIZE])).2 (by decide)).trans (by decide)

/-- C4: the Forwarder makes at most `max_retries` (3) delivery calls, sleeping
`retry_delay * 2 ^ attempt` between consecutive attempts (so the inter-attempt
delays are strictly increasing); against a store that never answers 200 it
reports a failed outcome after exactly `max_retries` calls, and on the first
successful attempt it reports delivered having made no further call. -/
theorem C4_forwarder_retry_policy (store : Nat → StoreResp) :
    (forward store).calls ≤ max_retries ∧
    (forward store).delays =
      (List.range ((forward store).calls - 1)).map (fun i => retry_delay * 2 ^ i) ∧
    List.Pairwise (fun d1 d2 => d1 < d2) (forward store).delays ∧
    ((∀ i m, store i ≠ StoreResp.status 200 m) →
      (forward store).calls = max_retries ∧
      ((∃ m, (forward store).outcome = FwdOutcome.httpFailed m) ∨
        (forward store).outcome = FwdOutcome.netFailed) ∧
      (forward store).outcome ≠ FwdOutcome.delivered) ∧
    (∀ k m, k < max_retries → store k = StoreResp.status 200 m →
      (∀ j, j < k → ∀ m2, store j ≠ StoreResp.status 200 m2) →
      (forward store).outcome = FwdOutcome.delivered ∧ (forward store).calls = k + 1) := by
  refine ⟨forwardGo_calls_le store max_retries 0, ?_, ?_, ?_, ?_⟩
  · rw [List.range_eq_range']
    exact forwardGo_delays store max_retries 0
  · rw [forward, forwardGo_delays store max_retries 0]
    exact List.Pairwise.map _
      (fun i j hij => by
        show retry_delay * 2 ^ i < retry_delay * 2 ^ j
        simp only [retry_delay, one_mul]
        exact pow_lt_pow_right₀ one_lt_two hij)
      (List.pairwise_lt_range' _ _)
  · intro hf
    have h := forwardGo_allfail store hf max_retries 0 (by norm_num [max_retries])
    refine ⟨h.1, h.2, ?_⟩
    intro hc
    have hc2 : (forwardGo store 0 max_retries).outcome = FwdOutcome.delivered := hc
    rcases h.2 with ⟨m, hm⟩ | hm <;> rw [hm] at hc2 <;> exact FwdOutcome.noConfusion hc2
  · intro k m hk hs hj
    exact forwardGo_first_success store k max_retries 0 m hk (by simpa using hs)
      (fun j hjk m2 => by simpa using hj j hjk m2)

/-- Witness for C4 against an always-unreachable store: exactly three calls,
a failed outcome, and delays 1 then 2 seconds. -/
theorem C4_witness :
    (forward downStore).calls = max_retries ∧
    (forward downStore).outcome = FwdOutcome.netFailed ∧
    (forward downStore).delays = [1, 2] := by
  have h := C4_forwarder_retry_policy downStore
  have hf := h.2.2.2.1 (fun i m hm => StoreResp.noConfusion hm)
  refine ⟨hf.1, by decide, ?_⟩
  rw [h.2.1, hf.1]
  simp [max_retries, retry_delay, List.range_succ]

/-- Counterexample to C5 as stated: a reading whose source_id is the empty
string — hence not a non-empty string — is NOT rejected by validation: it is
cleaned successfully, scored (its window is created and updated) and
delivered. -/
theorem C5_counterexample :
    clean_data (sampleWith "city" (JVal.str "")) =
      Except.ok { sampleCleaned with city := "" } ∧
    (receive_data emptyBufs okStore (sampleWith "city" (JVal.str ""))).response =
      EdgeResponse.ok ∧
    (receive_data emptyBufs okStore (sampleWith "city" (JVal.str ""))).bufs (JVal.str "") =
      [1000] ∧
    (receive_data emptyBufs okStore (sampleWith "city" (JVal.str ""))).calls = 1 :=
  ⟨by decide, by decide, by decide, by decide⟩

/-- C5 (amended): for every inbound reading on which validation raises — a
required field missing, a numeric field not coercible to float, or a
timestamp that does not parse (but NOT an empty or non-string source_id,
which `str()` coerces silently) — the pipeline aborts before the Detector and
the Forwarder: the buffer table is untouched, nothing is forwarded, no
delivery call is made, and the response is the exception response, a
different response from both delivery-failure responses. -/
theorem C5_malformed_aborts_pipeline (bufs : JVal → List ℚ) (store : Nat → StoreResp)
    (r : List (String × JVal)) (e : PyErr) (h : clean_data r = Except.error e) :
    ((receive_data bufs store r).response = EdgeResponse.exceptionError e ∨
      (receive_data bufs store r).response =
        EdgeResponse.exceptionError (PyErr.keyError "city")) ∧
    (receive_data bufs store r).bufs = bufs ∧
    (receive_data bufs store r).payload = none ∧
    (receive_data bufs store r).calls = 0 ∧
    (∀ m, (receive_data bufs store r).response ≠ EdgeResponse.forwardFailed m) ∧
    (receive_data bufs store r).response ≠ EdgeResponse.networkFailed := by
  unfold receive_data
  cases hc : jget r "city" with
  | error e2 =>
    have he2 : e2 = PyErr.keyError "city" := jget_error r "city" e2 hc
    subst he2
    exact ⟨Or.inr rfl, rfl, rfl, rfl, fun m hm => EdgeResponse.noConfusion hm,
      fun hm => EdgeResponse.noConfusion hm⟩
  | ok city =>
    dsimp only
    rw [h]
    exact ⟨Or.inl rfl, rfl, rfl, rfl, fun m hm => EdgeResponse.noConfusion hm,
      fun hm => EdgeResponse.noConfusion hm⟩

/-- Witness for C5: a reading whose voltage does not parse as a float is
rejected with the exception response, no delivery call and no payload. -/
theorem C5_witness :
    clean_data (sampleWith "voltage" (JVal.str "abc")) =
      Except.error (PyErr.valueError "could not convert string to float: abc") ∧
    (receive_data emptyBufs okStore (sampleWith "voltage" (JVal.str "abc"))).calls = 0 ∧
    (receive_data emptyBufs okStore (sampleWith "voltage" (JVal.str "abc"))).payload = none := by
  refine ⟨by decide, ?_, ?_⟩
  · exact (C5_malformed_aborts_pipeline emptyBufs okStore (sampleWith "voltage" (JVal.str "abc"))
      (PyErr.valueError "could not convert string to float: abc") (by decide)).2.2.2.1
  · exact (C5_malformed_aborts_pipeline emptyBufs okStore (sampleWith "voltage" (JVal.str "abc"))
      (PyErr.valueError "could not convert string to float: abc") (by decide)).2.2.1

/-- C6: a well-formed reading whose voltage or current is out of bounds is
not dropped: the Detector still consumes it (the window of its source is updated)
and it is forwarded to the store carrying status "invalid" and flagged
true. -/
theorem C6_out_of_range_still_forwarded (bufs : JVal → List ℚ) (store : Nat → StoreResp)
    (r : List (String × JVal)) (city : JVal) (cleaned : Cleaned)
    (payload : List (String × JVal))
    (hcity : jget r "city" = Except.ok city)
    (hclean : clean_data r = Except.ok cleaned)
    (hbuild : buildRequired r (detect_anomalies bufs city cleaned).2 = Except.ok payload)
    (hout : ¬ ((220 : ℚ) ≤ cleaned.voltage ∧ cleaned.voltage ≤ 240 ∧
               (5 : ℚ) ≤ cleaned.current ∧ cleaned.current ≤ 15)) :
    (receive_data bufs store r).payload = some payload ∧
    payload.lookup "status" = some (JVal.str "invalid") ∧
    payload.lookup "flagged" = some (JVal.jbool true) ∧
    1 ≤ (receive_data bufs store r).calls ∧
    (receive_data bufs store r).bufs city =
      windowUpdate (bufs city) cleaned.power_consumption := by
  have hr := receive_data_forwarding bufs store r city cleaned payload hcity hclean hbuild
  obtain ⟨hs, hf, -⟩ := clean_data_fields r cleaned hclean
  have hriv : readingIsValid cleaned.voltage cleaned.current =
      decide ((220 : ℚ) ≤ cleaned.voltage ∧ cleaned.voltage ≤ 240 ∧
              (5 : ℚ) ≤ cleaned.current ∧ cleaned.current ≤ 15) := rfl
  rw [hriv, decide_eq_false hout] at hs hf
  simp only [Bool.false_eq_true, if_false, Bool.not_false] at hs hf
  obtain ⟨t, hm, zd, pk, pc, ef, hpl⟩ := buildRequired_ok r _ payload hbuild
  have hlooks : payload.lookup "status" = some (JVal.str cleaned.status) ∧
      payload.lookup "flagged" = some (JVal.jbool cleaned.flagged) := by
    subst hpl
    exact ⟨rfl, rfl⟩
  refine ⟨by rw [hr], ?_, ?_, ?_, ?_⟩
  · rw [hlooks.1, hs]
  · rw [hlooks.2, hf]
  · rw [hr]
    exact forward_calls_pos store
  · rw [hr]
    show (if city = city then windowUpdate (bufs city) cleaned.power_consumption
          else bufs city) = windowUpdate (bufs city) cleaned.power_consumption
    rw [if_pos rfl]

/-- Witness for C6: a reading with voltage 250 (above the 240 bound) is still
scored and forwarded, carrying status "invalid" and flagged true. -/
theorem C6_witness :
    (receive_data emptyBufs okStore hotReading).payload = some hotPayload ∧
    hotPayload.lookup "status" = some (JVal.str "invalid") ∧
    hotPayload.lookup "flagged" = some (JVal.jbool true) ∧
    1 ≤ (receive_data emptyBufs okStore hotReading).calls ∧
    (receive_data emptyBufs okStore hotReading).bufs (JVal.str "Mumbai") =
      windowUpdate (emptyBufs (JVal.str "Mumbai")) hotCleaned.power_consumption :=
  C6_out_of_range_still_forwarded emptyBufs okStore hotReading (JVal.str "Mumbai")
    hotCleaned hotPayload (by decide) (by decide) (by decide) (by decide)

/-- Counterexample to C7: an application-level rejection (HTTP 400, store
says the payload is invalid) is NOT surfaced immediately: the Forwarder
still makes all three delivery calls before reporting failure. -/
theorem C7_counterexample :
    (forward rejectStore).calls = 3 ∧
    (forward rejectStore).calls ≠ 1 ∧
    (forward rejectStore).outcome = FwdOutcome.httpFailed "Invalid payload" :=
  ⟨by decide, by decide, by decide⟩

/-- C7 (amended): a non-retryable application-level rejection from the store
is treated like every other non-200 response: the Forwarder retries until the
budget is exhausted, making exactly `max_retries` delivery calls, and only
then reports failure with the message from the store — there is no short-circuit. -/
theorem C7_rejection_retried_to_exhaustion (code : Nat) (m : String) (hcode : code ≠ 200) :
    (forward (fun _ => StoreResp.status code m)).calls = max_retries ∧
    (forward (fun _ => StoreResp.status code m)).outcome = FwdOutcome.httpFailed m := by
  unfold forward max_retries
  simp [forwardGo, hcode]

/-- Witness for C7 at a concrete rejection status. -/
theorem C7_witness :
    (forward (fun _ => StoreResp.status 422 "unprocessable")).calls = max_retries ∧
    (forward (fun _ => StoreResp.status 422 "unprocessable")).outcome =
      FwdOutcome.httpFailed "unprocessable" :=
  C7_rejection_retried_to_exhaustion 422 "unprocessable" (by decide)

/-- Counterexample to C8 as stated: a reading carrying all required fields but
none of the optional enrichment fields is NOT processed and forwarded with
zero defaults: the edge pipeline raises `KeyError("temperature")`, forwards
nothing and makes no delivery call (the Detector, however, has already
consumed the reading). -/
theorem C8_counterexample :
    (receive_data emptyBufs okStore bareReading).response =
      EdgeResponse.exceptionError (PyErr.keyError "temperature") ∧
    (receive_data emptyBufs okStore bareReading).payload = none ∧
    (receive_data emptyBufs okStore bareReading).calls = 0 ∧
    (receive_data emptyBufs okStore bareReading).bufs (JVal.str "Delhi") = [1000] :=
  ⟨by decide, by decide, by decide, by decide⟩

/-- C8 (amended): the edge pipeline requires the enrichment fields: a reading
without `temperature` fails with `KeyError` after scoring, forwarding
nothing.  The zero-defaulting claimed for absent enrichment fields happens
only in the central store: `store_data` accepts a payload with only the five
required fields and fills every enrichment column with 0, and carries every
present enrichment field through unmodified. -/
theorem C8_enrichment_fields (bufs : JVal → List ℚ) (store : Nat → StoreResp)
    (r : List (String × JVal)) (city : JVal) (cleaned : Cleaned)
    (hcity : jget r "city" = Except.ok city)
    (hclean : clean_data r = Except.ok cleaned)
    (htemp : r.lookup "temperature" = none) :
    ((receive_data bufs store r).response =
        EdgeResponse.exceptionError (PyErr.keyError "temperature") ∧
      (receive_data bufs store r).payload = none ∧
      (receive_data bufs store r).calls = 0) ∧
    (∀ (cv tv : JVal) (v c p : ℚ),
      store_data
        [("city", cv), ("timestamp", tv), ("voltage", JVal.num v),
         ("current", JVal.num c), ("power_consumption", JVal.num p)] =
        Except.ok
          { city := cv, timestamp := tv, voltage := v, current := c,
            power_consumption := p, temperature := 0, humidity := 0,
            is_anomaly := 0, is_peak_hour := 0, zone_industrial := 0,
            zone_residential := 0, zone_commercial := 0,
            per_capita_consumption := 0, efficiency_score := 0 }) ∧
    (∀ (cv tv : JVal) (v c p t hm zi zr zc pc ef : ℚ) (pk : Bool),
      store_data
        [("city", cv), ("timestamp", tv), ("voltage", JVal.num v),
         ("current", JVal.num c), ("power_consumption", JVal.num p),
         ("temperature", JVal.num t), ("humidity", JVal.num hm),
         ("zone_distribution",
            JVal.obj [("industrial", zi), ("residential", zr), ("commercial", zc)]),
         ("is_peak_hour", JVal.jbool pk),
         ("per_capita_consumption", JVal.num pc),
         ("efficiency_score", JVal.num ef)] =
        Except.ok
          { city := cv, timestamp := tv, voltage := v, current := c,
            power_consumption := p, temperature := t, humidity := hm,
            is_anomaly := 0, is_peak_hour := if pk then 1 else 0,
            zone_industrial := zi, zone_residential := zr, zone_commercial := zc,
            per_capita_consumption := pc, efficiency_score := ef }) := by
  refine ⟨?_, ?_, ?_⟩
  · have hb : buildRequired r (detect_anomalies bufs city cleaned).2 =
        Except.error (PyErr.keyError "temperature") := by
      unfold buildRequired reqFloat
      rw [jget_of_lookup_none r "temperature" htemp]
    unfold receive_data
    rw [hcity, hclean]
    dsimp only
    rw [hb]
    exact ⟨rfl, rfl, rfl⟩
  · intro cv tv v c p
    rfl
  · intro cv tv v c p t hm zi zr zc pc ef pk
    rfl

/-- Witness for C8: the bare reading is rejected with no delivery call, while
the central store accepts its five fields directly and fills the enrichment
columns with zeros. -/
theorem C8_witness :
    (receive_data emptyBufs okStore bareReading).calls = 0 ∧
    store_data
      [("city", JVal.str "Delhi"), ("timestamp", JVal.str "2024-01-01T10:00:00"),
       ("voltage", JVal.num 230), ("current", JVal.num 10),
       ("power_consumption", JVal.num 1000)] =
      Except.ok
        { city := JVal.str "Delhi", timestamp := JVal.str "2024-01-01T10:00:00",
          voltage := 230, current := 10, power_consumption := 1000,
          temperature := 0, humidity := 0, is_anomaly := 0, is_peak_hour := 0,
          zone_industrial := 0, zone_residential := 0, zone_commercial := 0,
          per_capita_consumption := 0, efficiency_score := 0 } := by
  have h := C8_enrichment_fields emptyBufs okStore bareReading (JVal.str "Delhi")
    { sampleCleaned with city := "Delhi" } (by decide) (by decide) (by decide)
  exact ⟨h.1.2.2, h.2.1 _ _ _ _ _⟩

/-- C10: for every reading the edge successfully forwards, the payload
carries the verdict of the Detector under the key "anomaly" and has no
"is_anomaly" key, so whenever the central store persists such a payload the
`is_anomaly` column is 0 (false): the anomaly determination of the Detector is
never recorded in the durable store. -/
theorem C10_anomaly_verdict_not_persisted (bufs : JVal → List ℚ) (store : Nat → StoreResp)
    (r : List (String × JVal)) (city : JVal) (cleaned : Cleaned)
    (payload : List (String × JVal))
    (hcity : jget r "city" = Except.ok city)
    (hclean : clean_data r = Except.ok cleaned)
    (hbuild : buildRequired r (detect_anomalies bufs city cleaned).2 = Except.ok payload)
    (_hok : (receive_data bufs store r).response = EdgeResponse.ok) :
    (receive_data bufs store r).payload = some payload ∧
    payload.lookup "anomaly" =
      some (JVal.jbool (detectAnomaly (bufs city) cleaned.power_consumption)) ∧
    payload.lookup "is_anomaly" = none ∧
    ∀ row, store_data payload = Except.ok row → row.is_anomaly = 0 := by
  have hr := receive_data_forwarding bufs store r city cleaned payload hcity hclean hbuild
  obtain ⟨t, hm, zd, pk, pc, ef, hpl⟩ := buildRequired_ok r _ payload hbuild
  subst hpl
  exact ⟨by rw [hr], rfl, rfl, fun row hrow => store_data_is_anomaly _ row hrow rfl⟩

/-- Witness for C10 at a concrete delivered reading. -/
theorem C10_witness :
    (receive_data emptyBufs okStore sampleReading).payload = some samplePayload ∧
    List.lookup "is_anomaly" samplePayload = none ∧
    sampleRow.is_anomaly = 0 := by
  have h := C10_anomaly_verdict_not_persisted emptyBufs okStore sampleReading
    (JVal.str "Mumbai") sampleCleaned samplePayload
    (by decide) (by decide) (by decide) (by decide)
  exact ⟨h.1, h.2.2.1, h.2.2.2 sampleRow (by decide)⟩

end SmartGrid
